import Mathlib

set_option maxRecDepth 100000

/-!
Verification of the OnboardingAI repository's access-control and retrieval
pipeline (src/assistant.py, src/prompts.py, src/employees.py).

The Python code is shallowly embedded: dictionaries become association
lists, Python's `in` substring test becomes `pyIn`, `str.lower` becomes
`lowerStr` (ASCII case folding, which is what every keyword and query in
the claims exercises), Python's salted `hash` builtin becomes an explicit
function parameter `pyHash : String → Int`, and the fallible external
collaborators (vector store, LLM chain) become `Except`-valued oracles.
-/

namespace OnboardingAI

/-- Model of Python `str.lower` (ASCII case folding, applied per character). -/
def lowerStr (s : String) : String := String.mk (s.data.map Char.toLower)

/-- `leadsWith n h` is true when the char list `n` is an initial segment of `h`. -/
def leadsWith : List Char → List Char → Bool
  | [], _ => true
  | _ :: _, [] => false
  | a :: as, b :: bs => a == b && leadsWith as bs

/-- `containsSub n h` is true when `n` occurs contiguously inside `h`. -/
def containsSub (n : List Char) : List Char → Bool
  | [] => leadsWith n []
  | c :: t => leadsWith n (c :: t) || containsSub n t

/-- Model of Python's `needle in haystack` substring test on strings. -/
def pyIn (needle haystack : String) : Bool :=
  containsSub needle.data haystack.data

/-- `SecurityGuardrails.CONFIDENTIAL_KEYWORDS` (assistant.py line 157). -/
def CONFIDENTIAL_KEYWORDS : List String :=
  ["salary", "maaş", "performance", "performans", "evaluation",
   "değerlendirme", "compensation", "ücret"]

/-- `SecurityGuardrails.FACILITY_KEYWORDS` (assistant.py line 160). -/
def FACILITY_KEYWORDS : List String :=
  ["underground", "yeraltı", "sub-level", "basement", "bodrum", "gizli tesis"]

/-- One row of the `SCL_PERMISSIONS` table (assistant.py lines 39-65). -/
structure Permissions where
  allowed_topics : List String
  restricted_keywords : List String
  max_retrieval_k : Nat
deriving DecidableEq

/-- The `SCL_PERMISSIONS` dictionary, as an association list in the
dictionary's insertion order 1,2,3,4,5 (assistant.py lines 39-65). -/
def SCL_PERMISSIONS : List (Int × Permissions) :=
  [(1, ⟨["general_policies", "hr_benefits", "office_locations"],
        ["outbreak", "specimen", "t-virus", "g-virus", "nemesis", "tyrant",
         "secret", "classified"], 2⟩),
   (2, ⟨["general_policies", "hr_benefits", "office_locations",
         "safety_protocols", "emergency_procedures"],
        ["outbreak", "specimen", "t-virus", "g-virus", "nemesis", "tyrant"], 3⟩),
   (3, ⟨["general_policies", "hr_benefits", "office_locations",
         "safety_protocols", "emergency_procedures", "research_guidelines"],
        ["t-virus", "g-virus", "nemesis", "tyrant"], 4⟩),
   (4, ⟨["general_policies", "hr_benefits", "office_locations",
         "safety_protocols", "emergency_procedures", "research_guidelines",
         "containment_protocols"],
        ["nemesis", "tyrant"], 5⟩),
   (5, ⟨["*"], [], 10⟩)]

/-- `SCL_PERMISSIONS.get(scl_level, SCL_PERMISSIONS[1])`: lookup with
fallback to the level-1 row (assistant.py line 169). -/
def permissionsFor (scl_level : Int) : Permissions :=
  match SCL_PERMISSIONS.lookup scl_level with
  | some p => p
  | none => (SCL_PERMISSIONS.lookup 1).getD ⟨[], [], 2⟩

/-- The actor attributes a `SecurityGuardrails` instance extracts from the
employee dict in `__init__` (assistant.py lines 162-169). -/
structure SecurityGuardrails where
  scl_level : Int
  location : String
  location_security : String
  has_facility_access : Bool
deriving DecidableEq

/-- `self.permissions`, resolved in `__init__` (assistant.py line 169). -/
def SecurityGuardrails.permissions (g : SecurityGuardrails) : Permissions :=
  permissionsFor g.scl_level

/-- Zero-padded 4-digit rendering of `n % 10000`, the value of the Python
f-string `f"{v:04d}"` for `0 ≤ v < 10000`. -/
def pad4 (n : Nat) : String :=
  String.mk [Nat.digitChar (n / 1000 % 10), Nat.digitChar (n / 100 % 10),
             Nat.digitChar (n / 10 % 10), Nat.digitChar (n % 10)]

/-- `SecurityGuardrails._generate_ref_id` (assistant.py lines 171-173):
`f"{hash(seed) % 10000:04d}"`.  Python's salted string hash is the
parameter `pyHash`; `%` on a positive modulus is Euclidean `emod`. -/
def generate_ref_id (pyHash : String → Int) (seed : String) : String :=
  pad4 ((pyHash seed).emod 10000).toNat

/-- `ACCESS_DENIED_MESSAGES["confidential_data"]` (prompts.py lines 125-141). -/
def generate_confidential_denial : String :=
  "\n**TRANSMISSION START**\n---\n**SECURITY ALERT**: Protocol OMEGA-7[cite: 1937].\n\n**PROTOCOL RESPONSE**: \nInformation classified as OMEGA-Level Confidential[cite: 448]. \nAccess restricted to Payroll and Oversight Committee only[cite: 1545, 1798].\n\nThis classification applies regardless of your Security Clearance Level.\n\n**SECURITY COMPLIANCE NOTIFICATION**: \nInquiry logged. Do not repeat this request[cite: 1121].\nContinued attempts may result in Experimental Participation assignment[cite: 1341].\n---\n**TRANSMISSION END**\n"

/-- `ACCESS_DENIED_MESSAGES["underground_facility"]` (prompts.py lines 143-159). -/
def generate_facility_denial : String :=
  "\n**TRANSMISSION START**\n---\n**SECURITY ALERT**: Facility Access Restriction[cite: 1032, 1049].\n\n**PROTOCOL RESPONSE**: \nInformation regarding underground facilities is classified under Protocol Omega.\nAccess is restricted to Raccoon City HQ personnel with SCL-4 or higher clearance.\n\nYour current profile does not meet these requirements.\n\n**SECURITY COMPLIANCE NOTIFICATION**: \nThis inquiry has been flagged for Oversight Committee review[cite: 1121].\nFurther inquiries about this topic may result in Basement Cleaning Detail (BCD) assignment[cite: 1333].\n---\n**TRANSMISSION END**\n"

/-- Literal text of the `scl_insufficient` template before `{required_scl}`. -/
def SCL_DENIAL_PRE : String :=
  "\n**TRANSMISSION START**\n---\n**SECURITY ALERT**: Access Denied - Insufficient Clearance[cite: 1042].\n\n**PROTOCOL RESPONSE**: \nSubject matter requires SCL-"

/-- Literal text of the `scl_insufficient` template between `{required_scl}`
and `{scl_level}`. -/
def SCL_DENIAL_MID : String :=
  " authorization[cite: 1028]. \nYour current status (SCL-"

/-- Literal text of the `scl_insufficient` template between `{scl_level}`
and `{ref_id}`, ending just before the reference-id marker. -/
def SCL_DENIAL_BEFORE_REF : String :=
  ") is insufficient[cite: 1043].\n\nRequired Action: Submit Form UC-401 (Clearance Elevation Request) to your Department Head.\n\n**SECURITY COMPLIANCE NOTIFICATION**: \nAttempt logged "

/-- Literal text of the `scl_insufficient` template after `{ref_id}`,
starting right after the closing parenthesis of the reference id. -/
def SCL_DENIAL_POST : String :=
  ". Unauthorized access is punishable by Experimental Participation[cite: 1341].\n---\n**TRANSMISSION END**\n"

/-- `ACCESS_DENIED_MESSAGES["scl_insufficient"].format(...)` (prompts.py
lines 90-105): the template with the three placeholders filled in. -/
def scl_insufficient_message (required_scl scl_level : Int) (ref_id : String) : String :=
  SCL_DENIAL_PRE ++ toString required_scl ++ SCL_DENIAL_MID ++ toString scl_level ++
    SCL_DENIAL_BEFORE_REF ++ "(Ref: " ++ ref_id ++ ")" ++ SCL_DENIAL_POST

/-- The `required_scl` loop of `_generate_scl_denial` (assistant.py lines
209-214): the first level, scanning the table in order, whose restricted
list does not contain the triggering keyword; default 5. -/
def requiredSclFor (triggered_keyword : String) : Int :=
  match SCL_PERMISSIONS.find?
      (fun p => !(p.2.restricted_keywords.contains triggered_keyword)) with
  | some p => p.1
  | none => 5

/-- `SecurityGuardrails._generate_scl_denial` (assistant.py lines 207-220). -/
def generate_scl_denial (pyHash : String → Int) (g : SecurityGuardrails)
    (triggered_keyword : String) : String :=
  scl_insufficient_message (requiredSclFor triggered_keyword) g.scl_level
    ("SCL-" ++ generate_ref_id pyHash triggered_keyword)

/-- The third block of `check_query_permission` (assistant.py lines
192-197): scan the actor's restricted keywords in list order; deny on the
first one occurring in the lowered query, else allow with empty message. -/
def sclKeywordCheck (pyHash : String → Int) (g : SecurityGuardrails)
    (query_lower : String) : Bool × String :=
  match g.permissions.restricted_keywords.find? (fun kw => pyIn kw query_lower) with
  | some kw => (false, generate_scl_denial pyHash g kw)
  | none => (true, "")

/-- `SecurityGuardrails.check_query_permission` (assistant.py lines
175-197): confidential check, then facility check, then the SCL keyword
check, on the lowercased query. -/
def check_query_permission (pyHash : String → Int) (g : SecurityGuardrails)
    (query : String) : Bool × String :=
  let query_lower := lowerStr query
  if CONFIDENTIAL_KEYWORDS.any (fun kw => pyIn kw query_lower) then
    (false, generate_confidential_denial)
  else if FACILITY_KEYWORDS.any (fun kw => pyIn kw query_lower) && !g.has_facility_access then
    (false, generate_facility_denial)
  else
    sclKeywordCheck pyHash g query_lower

/-- `SecurityGuardrails.get_retrieval_k` (assistant.py lines 230-232). -/
def get_retrieval_k (g : SecurityGuardrails) : Nat :=
  g.permissions.max_retrieval_k

/-- A document returned by the vector store: `page_content` plus the
optional `source` entry of its metadata dict. -/
structure Doc where
  page_content : String
  metadata_source : Option String
deriving DecidableEq

/-- The `LOCATION_REMINDERS` dictionary (prompts.py lines 210-246). -/
def LOCATION_REMINDERS : List (String × String) :=
  [("Raccoon City HQ",
    "\n**HQ SECURITY REMINDER**[cite: 1032]:\nAs a Raccoon City HQ asset, you are subject to:\n- Mandatory Protocol Omega drills (quarterly)\n- Continuous biometric monitoring in restricted zones\n- Emergency contact: ext. 4-UMBRELLA\n"),
   ("Umbrella Europe",
    "\n**FACILITY SECURITY REMINDER**[cite: 1037]:\nAs a Umbrella Europe asset:\n- Standard security protocols apply\n- Inter-facility requests require Form UC-502\n- Emergency contact: ext. EU-SECURE\n"),
   ("Umbrella Asia",
    "\n**FACILITY SECURITY REMINDER**[cite: 1037]:\nAs a Umbrella Asia asset:\n- Standard security protocols apply\n- Inter-facility requests require Form UC-502\n- Emergency contact: ext. ASIA-SEC\n"),
   ("Umbrella North America",
    "\n**FACILITY SECURITY REMINDER**[cite: 1050]:\nAs a remote operations asset:\n- Limited central database access\n- Some queries may require HQ escalation\n- Emergency contact: ext. NA-OPS\n"),
   ("Umbrella South America",
    "\n**FACILITY SECURITY REMINDER**[cite: 1050]:\nAs a remote operations asset:\n- Limited central database access\n- Some queries may require HQ escalation\n- Emergency contact: ext. SA-OPS\n")]

/-- The state of an `OnboardingAssistant` (assistant.py lines 245-270)
that the pipeline reads.  The vector store is the external similarity
search: given `k`, the score threshold and the query it either returns a
document list or raises (`Except.error`).  `none` models an
uninitialized store.  The employee fields mirror the dict entries read by
`_format_transmission_response`; `none` models a missing/empty entry. -/
structure OnboardingAssistant where
  security : SecurityGuardrails
  emp_name : Option String
  emp_lastname : Option String
  emp_employee_id : Option String
  vector_store : Option (Nat → ℚ → String → Except String (List Doc))
  retrieval_score_threshold : ℚ

/-- `OnboardingAssistant._retrieve_policy_information` (assistant.py lines
282-318): sentinel when the store is missing; the store call guarded by
try/except returning the unavailable sentinel on error; the not-found
sentinel on an empty result; otherwise the sources and contents joined
with the visible delimiter. -/
def retrieve_policy_information (a : OnboardingAssistant) (query : String) : String :=
  match a.vector_store with
  | none => "No policy information available."
  | some search =>
    let k_value := get_retrieval_k a.security
    match search k_value a.retrieval_score_threshold query with
    | Except.error _ => "Policy database temporarily unavailable. Please try again later."
    | Except.ok docs =>
      if docs.isEmpty then
        "No relevant policy information found within your clearance level."
      else
        String.intercalate "\n\n---\n\n"
          (docs.map (fun doc =>
            "[Source: " ++ doc.metadata_source.getD "Unknown" ++ "]\n" ++ doc.page_content))

/-- `OnboardingAssistant._format_transmission_response` (assistant.py
lines 341-374): pass through when the start marker is already present,
otherwise wrap in the transmission envelope (the Python f-string after
its final `.strip()`, which removes the literal leading and trailing
newline of the template). -/
def format_transmission_response (a : OnboardingAssistant) (response : String) : String :=
  let full_name := a.emp_name.getD "Unknown" ++ " " ++ a.emp_lastname.getD ""
  let emp_id := match a.emp_employee_id with
    | some s => if s = "" then "N/A" else s.take 8
    | none => "N/A"
  if pyIn "**TRANSMISSION START**" response then
    response
  else
    let location_reminder := (LOCATION_REMINDERS.lookup a.security.location).getD ""
    "**TRANSMISSION START**\n---\n**IDENTIFIED ASSET**: " ++ full_name ++ " | " ++
      emp_id ++ " | SCL-" ++ toString a.security.scl_level ++ " | " ++
      a.security.location ++
      "\n**SUBJECT**: Employee Inquiry Response\n\n**PROTOCOL RESPONSE**: \n" ++
      response ++
      "\n\n**SECURITY COMPLIANCE NOTIFICATION**: \nThis transmission is logged under Protocol 7-Alpha[cite: 1121]. Any unauthorized distribution of this information \nwill result in immediate termination of employment and potential Experimental Participation assignment[cite: 1341].\n\n" ++
      location_reminder ++
      "\n\n\"Our business is life itself.\"\n---\n**TRANSMISSION END**"

/-- The fixed degraded-system envelope returned by the `except` branch of
`get_response` (assistant.py lines 460-486), after its `.strip()`. -/
def error_response : String :=
  "**TRANSMISSION START**\n---\n**SYSTEM ALERT**: Temporary Access Restriction[cite: 1121]\n\n**PROTOCOL RESPONSE**: \nThe U-SIOP system is currently experiencing high demand or maintenance. \nYour inquiry has been queued for processing.\n\nPlease retry your request in a few moments. If this issue persists, \ncontact the IT Help Desk at extension 4-UMBRELLA.\n\n**SECURITY COMPLIANCE NOTIFICATION**: \nSystem outages are logged. Do not attempt to bypass security protocols during this time.\nUnauthorized system access attempts may result in Basement Cleaning Detail (BCD) assignment[cite: 1333].\n\n\"Our business is life itself.\"\n---\n**TRANSMISSION END**"

/-- One row of the SQLite `message_history` table as written by
`ChatMessageHistory.add_message` (assistant.py lines 97-108). -/
structure Message where
  role : String
  content : String
deriving DecidableEq

/-- Observable outcome of one `get_response` turn: the returned text, the
messages appended to the history in order, and which pipeline stages
issued their external call. -/
structure TurnResult where
  response : String
  persisted : List Message
  retrievalCalled : Bool
  composerCalled : Bool
  generatorCalled : Bool
deriving DecidableEq

/-- `OnboardingAssistant.get_response` (assistant.py lines 376-486).
The guard branch persists the query and the denial and returns the
denial.  On the allowed path, retrieval runs (step 2), the composed
instructions including the retrieved context feed the external chain
(steps 3-4), modelled by the oracle `gen` applied to the retrieved
context; if the chain raises, the `except` branch returns the fixed
degraded envelope having persisted nothing; on success the formatted
response and the query are persisted (step 6).  Totality of this
function is the Python guarantee that no exception escapes. -/
def get_response (pyHash : String → Int) (a : OnboardingAssistant)
    (gen : String → Except String String) (user_input : String) : TurnResult :=
  match check_query_permission pyHash a.security user_input with
  | (false, denial_message) =>
    ⟨denial_message,
     [⟨"human", user_input⟩, ⟨"ai", denial_message⟩],
     false, false, false⟩
  | (true, _) =>
    let retrieved_policy_information := retrieve_policy_information a user_input
    match gen retrieved_policy_information with
    | Except.error _ => ⟨error_response, [], true, true, true⟩
    | Except.ok response =>
      let formatted_response := format_transmission_response a response
      ⟨formatted_response,
       [⟨"human", user_input⟩, ⟨"ai", formatted_response⟩],
       true, true, true⟩

/-- One value of `ROLE_DEPARTMENT_MAPPING` (employees.py lines 10-61). -/
structure RoleData where
  department : String
  scl : Int
  allowed_locations : List String
deriving DecidableEq

/-- The `ROLE_DEPARTMENT_MAPPING` dictionary (employees.py lines 10-61). -/
def ROLE_DEPARTMENT_MAPPING : List (String × RoleData) :=
  [("Research Scientist", ⟨"R&D", 3, ["Raccoon City HQ", "Umbrella Europe", "Umbrella Asia"]⟩),
   ("Senior Research Lead", ⟨"R&D", 4, ["Raccoon City HQ"]⟩),
   ("Software Engineer", ⟨"IT", 2, ["Raccoon City HQ", "Umbrella Europe", "Umbrella Asia", "Umbrella North America", "Umbrella South America"]⟩),
   ("IT Security Specialist", ⟨"IT", 3, ["Raccoon City HQ", "Umbrella Europe"]⟩),
   ("Operations Manager", ⟨"Operations", 2, ["Raccoon City HQ", "Umbrella Europe", "Umbrella Asia", "Umbrella North America", "Umbrella South America"]⟩),
   ("HR Specialist", ⟨"HR", 1, ["Raccoon City HQ", "Umbrella Europe", "Umbrella North America"]⟩),
   ("HR Director", ⟨"HR", 2, ["Raccoon City HQ"]⟩),
   ("Security Officer", ⟨"Security", 4, ["Raccoon City HQ", "Umbrella Europe"]⟩),
   ("Junior Lab Technician", ⟨"R&D", 1, ["Umbrella Europe", "Umbrella Asia", "Umbrella North America", "Umbrella South America"]⟩),
   ("Facility Administrator", ⟨"Operations", 5, ["Raccoon City HQ"]⟩)]

/-- One value of `LOCATION_PROTOCOLS` (employees.py lines 66-97). -/
structure LocationData where
  security_level : String
  has_underground_facility : Bool
  special_protocols : List String
  emergency_contact : String
deriving DecidableEq

/-- The `LOCATION_PROTOCOLS` dictionary (employees.py lines 66-97). -/
def LOCATION_PROTOCOLS : List (String × LocationData) :=
  [("Raccoon City HQ", ⟨"ALPHA", true, ["Protocol Omega", "Containment Level-4 Access"], "ext. 4-UMBRELLA"⟩),
   ("Umbrella Europe", ⟨"BETA", false, ["Standard Security"], "ext. EU-SECURE"⟩),
   ("Umbrella Asia", ⟨"BETA", false, ["Standard Security"], "ext. ASIA-SEC"⟩),
   ("Umbrella North America", ⟨"GAMMA", false, ["Remote Operations Protocol"], "ext. NA-OPS"⟩),
   ("Umbrella South America", ⟨"GAMMA", false, ["Remote Operations Protocol"], "ext. SA-OPS"⟩)]

/-- The deterministic fields of one record built by
`generate_employee_data` (employees.py lines 109-149) once the random
draws — the `position` (a key of `ROLE_DEPARTMENT_MAPPING`, paired here
with its `role_data` value) and the `location` (drawn from the role's
`allowed_locations`) — are fixed.  The random display fields (names,
ids, skills, dates, confidential salary and score) do not influence the
fields below. -/
structure EmployeeRecord where
  position : String
  department : String
  clearance_level : Int
  location : String
  location_security_level : String
  has_facility_access : Bool
  emergency_contact_ext : String
deriving DecidableEq

/-- The record construction of `generate_employee_data` (employees.py
lines 118-147): `location_data = LOCATION_PROTOCOLS.get(location, {})`
and `has_facility_access = location_data.get("has_underground_facility",
False) and scl >= 4`. -/
def generate_employee_core (position : String) (role_data : RoleData)
    (location : String) : EmployeeRecord :=
  let location_data := LOCATION_PROTOCOLS.lookup location
  ⟨position, role_data.department, role_data.scl, location,
   (location_data.map LocationData.security_level).getD "UNKNOWN",
   (location_data.map LocationData.has_underground_facility).getD false
     && decide (4 ≤ role_data.scl),
   (location_data.map LocationData.emergency_contact).getD "ext. 0-HELP"⟩

/-! Concrete fixtures used to instantiate the theorems below. -/

/-- A concrete stand-in for Python's process-salted `hash` builtin. -/
def pyHashZero : String → Int := fun _ => 0

/-- A level-1 actor at a facility without underground access. -/
def demoGuardLvl1 : SecurityGuardrails := ⟨1, "Umbrella Europe", "BETA", false⟩

/-- A level-5 actor at HQ with the facility-access flag set. -/
def demoGuardLvl5 : SecurityGuardrails := ⟨5, "Raccoon City HQ", "ALPHA", true⟩

/-- A level-5 actor whose facility-access flag is cleared. -/
def demoGuardLvl5NoAccess : SecurityGuardrails := ⟨5, "Umbrella Europe", "BETA", false⟩

/-- A vector-store oracle that always raises. -/
def failingSearch : Nat → ℚ → String → Except String (List Doc) :=
  fun _ _ _ => Except.error "connection refused"

/-- A vector-store oracle that returns zero qualifying passages. -/
def emptySearch : Nat → ℚ → String → Except String (List Doc) :=
  fun _ _ _ => Except.ok []

/-- An assistant whose vector store was never initialized. -/
def demoNoStore : OnboardingAssistant :=
  ⟨demoGuardLvl1, some "Ada", some "Wong", some "e5f6a7b8-0000", none, (1 : ℚ) / 2⟩

/-- An assistant whose vector store raises on every call. -/
def demoFailingStore : OnboardingAssistant :=
  ⟨⟨2, "Umbrella Asia", "BETA", false⟩, some "Rebecca", some "Chambers", none,
   some failingSearch, (1 : ℚ) / 2⟩

/-- An assistant whose vector store finds nothing above the threshold. -/
def demoEmptyStore : OnboardingAssistant :=
  ⟨⟨3, "Raccoon City HQ", "ALPHA", false⟩, some "Chris", some "Redfield", none,
   some emptySearch, (1 : ℚ) / 2⟩

/-- A generator oracle that always succeeds. -/
def okGen : String → Except String String := fun _ => Except.ok "Here is the policy answer."

/-- A generator oracle that always raises. -/
def failGen : String → Except String String := fun _ => Except.error "LLM timeout"

/-! Helper lemmas about the substring test. -/

/-- An empty needle occurs in every haystack. -/
theorem containsSub_nil (h : List Char) : containsSub [] h = true := by
  cases h <;> simp [containsSub, leadsWith]

/-- A list is an initial segment of itself followed by anything. -/
theorem leadsWith_append_self (n b : List Char) : leadsWith n (n ++ b) = true := by
  induction n with
  | nil => rfl
  | cons a as ih => simp [leadsWith, ih]

/-- A needle occurs at the very front of `n ++ b`. -/
theorem containsSub_append_self (n b : List Char) : containsSub n (n ++ b) = true := by
  cases n with
  | nil => simpa using containsSub_nil b
  | cons a as =>
    simp only [List.cons_append, containsSub, Bool.or_eq_true]
    exact Or.inl (leadsWith_append_self (a :: as) b)

/-- A needle occurs anywhere it is sandwiched between two lists. -/
theorem containsSub_append_left (A n b : List Char) : containsSub n (A ++ (n ++ b)) = true := by
  induction A with
  | nil => simpa using containsSub_append_self n b
  | cons c t ih => simp [containsSub, ih]

/-- Python's `in` succeeds whenever the haystack splits around the needle. -/
theorem pyIn_of_split (n h : String) (A B : List Char)
    (hsplit : h.data = A ++ (n.data ++ B)) : pyIn n h = true := by
  unfold pyIn
  rw [hsplit]
  exact containsSub_append_left A n.data B

/-- The characters `Nat.digitChar` produces below 10 are decimal digits. -/
theorem digitChar_lt_ten_digit (m : Nat) (h : m < 10) : (Nat.digitChar m).isDigit = true := by
  interval_cases m <;> rfl

/-- The ten-adic digits extracted in `pad4` are decimal digits. -/
theorem digitChar_mod_digit (n : Nat) : (Nat.digitChar (n % 10)).isDigit = true :=
  digitChar_lt_ten_digit _ (Nat.mod_lt _ (by norm_num))

/-- The first tier whose restricted list misses a keyword outside the
level-1 list is tier 1 itself. -/
theorem requiredSclFor_eq_one (k0 : String)
    (hm : k0 ∉ (["outbreak", "specimen", "t-virus", "g-virus", "nemesis", "tyrant",
           "secret", "classified"] : List String)) :
    requiredSclFor k0 = 1 := by
  simp only [List.mem_cons, List.not_mem_nil, or_false, not_or] at hm
  obtain ⟨h1, h2, h3, h4, h5, h6, h7, h8⟩ := hm
  simp [requiredSclFor, SCL_PERMISSIONS, List.find?, h1, h2, h3, h4, h5, h6, h7, h8]

/-- Minimality of the tier computed by the `_generate_scl_denial` loop:
the loop's result does not restrict the keyword, and no smaller tier in
the table leaves the keyword unrestricted. -/
theorem requiredSclFor_minimal (k0 : String) :
    k0 ∉ (permissionsFor (requiredSclFor k0)).restricted_keywords ∧
    ∀ l ∈ ([1, 2, 3, 4, 5] : List Int),
      k0 ∉ (permissionsFor l).restricted_keywords → requiredSclFor k0 ≤ l := by
  by_cases hm : k0 ∈ (["outbreak", "specimen", "t-virus", "g-virus", "nemesis",
      "tyrant", "secret", "classified"] : List String)
  · fin_cases hm <;> exact ⟨by decide, by decide⟩
  · have hreq := requiredSclFor_eq_one k0 hm
    constructor
    · rw [hreq]
      simpa [permissionsFor, SCL_PERMISSIONS, List.lookup] using hm
    · intro l hl _
      rw [hreq]
      fin_cases hl <;> decide

/-- Claim C1: for every actor, of any clearance level including 5, a query
containing (case-insensitively, as a substring) any confidential-vocabulary
term is denied by `check_query_permission` with the confidential-category
denial message, regardless of what the facility and clearance rules would
say (the statement holds for every actor and every such query, so in
particular when those rules would also match). -/
theorem confidential_rule_overrides_all (pyHash : String → Int)
    (g : SecurityGuardrails) (query : String)
    (h : CONFIDENTIAL_KEYWORDS.any (fun kw => pyIn kw (lowerStr query)) = true) :
    check_query_permission pyHash g query = (false, generate_confidential_denial) := by
  unfold check_query_permission
  simp [h]

/-- Witness for C1: a level-5 actor without facility access asking a query
that also contains a facility term and a restricted keyword is still
denied with the confidential message. -/
theorem confidential_rule_overrides_all_witness :
    CONFIDENTIAL_KEYWORDS.any
      (fun kw => pyIn kw (lowerStr "What is the SALARY of the tyrant in the underground basement")) = true ∧
    check_query_permission pyHashZero demoGuardLvl5NoAccess
      "What is the SALARY of the tyrant in the underground basement" =
      (false, generate_confidential_denial) :=
  ⟨by decide,
   confidential_rule_overrides_all pyHashZero demoGuardLvl5NoAccess
     "What is the SALARY of the tyrant in the underground basement" (by decide)⟩

/-- Claim C2: when neither the confidential rule nor the facility rule
fires and the scan of the actor's forbidden-keyword list finds a keyword
`k0` in the lowered query, `check_query_permission` returns denied with the
clearance-category message reporting `requiredSclFor k0` as the required
level, and `requiredSclFor k0` is the minimum tier, scanning upward from 1,
whose forbidden set does not contain `k0`. -/
theorem clearance_denial_reports_minimum_tier (pyHash : String → Int)
    (g : SecurityGuardrails) (query k0 : String)
    (hconf : CONFIDENTIAL_KEYWORDS.any (fun kw => pyIn kw (lowerStr query)) = false)
    (hfac : (FACILITY_KEYWORDS.any (fun kw => pyIn kw (lowerStr query))
              && !g.has_facility_access) = false)
    (hfind : g.permissions.restricted_keywords.find?
              (fun kw => pyIn kw (lowerStr query)) = some k0) :
    check_query_permission pyHash g query =
      (false, scl_insufficient_message (requiredSclFor k0) g.scl_level
        ("SCL-" ++ generate_ref_id pyHash k0)) ∧
    k0 ∉ (permissionsFor (requiredSclFor k0)).restricted_keywords ∧
    ∀ l ∈ ([1, 2, 3, 4, 5] : List Int),
      k0 ∉ (permissionsFor l).restricted_keywords → requiredSclFor k0 ≤ l := by
  refine ⟨?_, (requiredSclFor_minimal k0).1, (requiredSclFor_minimal k0).2⟩
  unfold check_query_permission sclKeywordCheck
  simp [hconf, hfac, hfind, generate_scl_denial]

/-- Witness for C2: a level-1 actor asking about the outbreak is denied
with required level 3 (the first tier whose forbidden set drops
"outbreak"). -/
theorem clearance_denial_reports_minimum_tier_witness :
    (CONFIDENTIAL_KEYWORDS.any
        (fun kw => pyIn kw (lowerStr "tell me about the outbreak")) = false ∧
     (FACILITY_KEYWORDS.any (fun kw => pyIn kw (lowerStr "tell me about the outbreak"))
        && !demoGuardLvl1.has_facility_access) = false ∧
     demoGuardLvl1.permissions.restricted_keywords.find?
        (fun kw => pyIn kw (lowerStr "tell me about the outbreak")) = some "outbreak") ∧
    (check_query_permission pyHashZero demoGuardLvl1 "tell me about the outbreak" =
      (false, scl_insufficient_message (requiredSclFor "outbreak") demoGuardLvl1.scl_level
        ("SCL-" ++ generate_ref_id pyHashZero "outbreak")) ∧
     "outbreak" ∉ (permissionsFor (requiredSclFor "outbreak")).restricted_keywords ∧
     ∀ l ∈ ([1, 2, 3, 4, 5] : List Int),
       "outbreak" ∉ (permissionsFor l).restricted_keywords → requiredSclFor "outbreak" ≤ l) :=
  ⟨⟨by decide, by decide, by decide⟩,
   clearance_denial_reports_minimum_tier pyHashZero demoGuardLvl1
     "tell me about the outbreak" "outbreak" (by decide) (by decide) (by decide)⟩

/-- Claim C5: for a query containing a restricted-facility term and no
confidential term, an actor whose facility-access flag is false is denied
with the facility-category message, while an actor whose flag is true is
never denied by the facility rule — the outcome is exactly what the
clearance-keyword stage yields, for every clearance level. -/
theorem facility_rule_respects_access_flag (pyHash : String → Int)
    (g : SecurityGuardrails) (query : String)
    (hconf : CONFIDENTIAL_KEYWORDS.any (fun kw => pyIn kw (lowerStr query)) = false)
    (hfac : FACILITY_KEYWORDS.any (fun kw => pyIn kw (lowerStr query)) = true) :
    (g.has_facility_access = false →
      check_query_permission pyHash g query = (false, generate_facility_denial)) ∧
    (g.has_facility_access = true →
      check_query_permission pyHash g query = sclKeywordCheck pyHash g (lowerStr query)) := by
  constructor <;> intro ha <;> unfold check_query_permission <;> simp [hconf, hfac, ha]

/-- Witness for C5: "underground access" is facility-denied for an actor
without the flag and passes through to the clearance stage (which allows
it) for an actor with the flag. -/
theorem facility_rule_respects_access_flag_witness :
    (CONFIDENTIAL_KEYWORDS.any
        (fun kw => pyIn kw (lowerStr "underground access")) = false ∧
     FACILITY_KEYWORDS.any (fun kw => pyIn kw (lowerStr "underground access")) = true) ∧
    check_query_permission pyHashZero demoGuardLvl1 "underground access" =
      (false, generate_facility_denial) ∧
    check_query_permission pyHashZero demoGuardLvl5 "underground access" =
      sclKeywordCheck pyHashZero demoGuardLvl5 (lowerStr "underground access") :=
  ⟨⟨by decide, by decide⟩,
   (facility_rule_respects_access_flag pyHashZero demoGuardLvl1 "underground access"
     (by decide) (by decide)).1 rfl,
   (facility_rule_respects_access_flag pyHashZero demoGuardLvl5 "underground access"
     (by decide) (by decide)).2 rfl⟩

/-- Claim C8: the retrieval breadth returned by `get_retrieval_k` is
exactly 2, 3, 4, 5, 10 at clearance levels 1-5, and is monotonically
non-decreasing in the clearance level across those levels. -/
theorem retrieval_k_values_and_monotonicity :
    (∀ g : SecurityGuardrails, g.scl_level = 1 → get_retrieval_k g = 2) ∧
    (∀ g : SecurityGuardrails, g.scl_level = 2 → get_retrieval_k g = 3) ∧
    (∀ g : SecurityGuardrails, g.scl_level = 3 → get_retrieval_k g = 4) ∧
    (∀ g : SecurityGuardrails, g.scl_level = 4 → get_retrieval_k g = 5) ∧
    (∀ g : SecurityGuardrails, g.scl_level = 5 → get_retrieval_k g = 10) ∧
    (∀ g g' : SecurityGuardrails, g.scl_level ∈ ([1, 2, 3, 4, 5] : List Int) →
      g'.scl_level ∈ ([1, 2, 3, 4, 5] : List Int) → g.scl_level ≤ g'.scl_level →
      get_retrieval_k g ≤ get_retrieval_k g') := by
  refine ⟨?_, ?_, ?_, ?_, ?_, ?_⟩
  · intro g h
    simp [get_retrieval_k, SecurityGuardrails.permissions, permissionsFor, h,
      SCL_PERMISSIONS, List.lookup]
  · intro g h
    simp [get_retrieval_k, SecurityGuardrails.permissions, permissionsFor, h,
      SCL_PERMISSIONS, List.lookup]
  · intro g h
    simp [get_retrieval_k, SecurityGuardrails.permissions, permissionsFor, h,
      SCL_PERMISSIONS, List.lookup]
  · intro g h
    simp [get_retrieval_k, SecurityGuardrails.permissions, permissionsFor, h,
      SCL_PERMISSIONS, List.lookup]
  · intro g h
    simp [get_retrieval_k, SecurityGuardrails.permissions, permissionsFor, h,
      SCL_PERMISSIONS, List.lookup]
  · intro g g' h1 h2 hle
    simp only [List.mem_cons, List.not_mem_nil, or_false] at h1 h2
    rcases h1 with h1 | h1 | h1 | h1 | h1 <;> rcases h2 with h2 | h2 | h2 | h2 | h2 <;>
      first
        | (simp only [get_retrieval_k, SecurityGuardrails.permissions, h1, h2]; decide)
        | (rw [h1, h2] at hle; omega)

/-- Witness for C8: the level-1 and level-5 fixtures get breadths 2 and
10 respectively, and 2 is at most 10. -/
theorem retrieval_k_values_and_monotonicity_witness :
    get_retrieval_k demoGuardLvl1 = 2 ∧ get_retrieval_k demoGuardLvl5 = 10 ∧
    get_retrieval_k demoGuardLvl1 ≤ get_retrieval_k demoGuardLvl5 :=
  ⟨retrieval_k_values_and_monotonicity.1 demoGuardLvl1 rfl,
   retrieval_k_values_and_monotonicity.2.2.2.2.1 demoGuardLvl5 rfl,
   retrieval_k_values_and_monotonicity.2.2.2.2.2 demoGuardLvl1 demoGuardLvl5
     (by decide) (by decide) (by decide)⟩

/-- Claim C9: in the clearance policy table, the forbidden-keyword set of
every higher level is included in that of every lower level, level 5's
forbidden-keyword set is empty, and consequently a level-5 actor is never
denied by the clearance-keyword rule. -/
theorem restricted_keyword_sets_shrink :
    (∀ l1 ∈ ([1, 2, 3, 4, 5] : List Int), ∀ l2 ∈ ([1, 2, 3, 4, 5] : List Int),
      l1 < l2 → ∀ kw ∈ (permissionsFor l2).restricted_keywords,
        kw ∈ (permissionsFor l1).restricted_keywords) ∧
    (permissionsFor 5).restricted_keywords = [] ∧
    (∀ (pyHash : String → Int) (g : SecurityGuardrails) (query_lower : String),
      g.scl_level = 5 → sclKeywordCheck pyHash g query_lower = (true, "")) := by
  refine ⟨?_, by decide, ?_⟩
  · intro l1 h1 l2 h2 hlt
    fin_cases h1 <;> fin_cases h2 <;> first | decide | (exact absurd hlt (by decide))
  · intro pyHash g query_lower h5
    unfold sclKeywordCheck
    simp [SecurityGuardrails.permissions, h5, permissionsFor, SCL_PERMISSIONS,
      List.lookup, List.find?]

/-- Witness for C9: "nemesis" is forbidden at level 4 hence at level 1,
and the level-5 fixture passes the clearance-keyword stage. -/
theorem restricted_keyword_sets_shrink_witness :
    "nemesis" ∈ (permissionsFor 1).restricted_keywords ∧
    sclKeywordCheck pyHashZero demoGuardLvl5 (lowerStr "show me the nemesis files") =
      (true, "") :=
  ⟨restricted_keyword_sets_shrink.1 1 (by decide) 4 (by decide) (by decide)
     "nemesis" (by decide),
   restricted_keyword_sets_shrink.2.2 pyHashZero demoGuardLvl5
     (lowerStr "show me the nemesis files") rfl⟩

/-- Claim C10: an employee record produced by the generator has its
facility-access flag true only when its location is Raccoon City HQ (the
only location whose protocol record has an underground facility) and its
clearance level is at least 4; every other location/clearance combination
yields a false flag. -/
theorem facility_access_only_at_hq_with_high_clearance :
    (∀ e ∈ LOCATION_PROTOCOLS, e.2.has_underground_facility = (e.1 == "Raccoon City HQ")) ∧
    (∀ p r loc, (p, r) ∈ ROLE_DEPARTMENT_MAPPING → loc ∈ r.allowed_locations →
      ((generate_employee_core p r loc).has_facility_access = true →
        loc = "Raccoon City HQ" ∧ 4 ≤ (generate_employee_core p r loc).clearance_level) ∧
      (¬(loc = "Raccoon City HQ" ∧ 4 ≤ r.scl) →
        (generate_employee_core p r loc).has_facility_access = false)) := by
  refine ⟨by decide, ?_⟩
  intro p r loc h1 h2
  fin_cases h1 <;> fin_cases h2 <;> exact ⟨by decide, by decide⟩

/-- Witness for C10: a Senior Research Lead (clearance 4) at Raccoon City
HQ gets the flag, and the flag indeed certifies the HQ location and the
clearance bound. -/
theorem facility_access_only_at_hq_with_high_clearance_witness :
    (("Senior Research Lead", (⟨"R&D", 4, ["Raccoon City HQ"]⟩ : RoleData)) ∈
        ROLE_DEPARTMENT_MAPPING) ∧
    ("Raccoon City HQ" = "Raccoon City HQ" ∧
      4 ≤ (generate_employee_core "Senior Research Lead" ⟨"R&D", 4, ["Raccoon City HQ"]⟩
            "Raccoon City HQ").clearance_level) :=
  ⟨by decide,
   (facility_access_only_at_hq_with_high_clearance.2 "Senior Research Lead"
     ⟨"R&D", 4, ["Raccoon City HQ"]⟩ "Raccoon City HQ" (by decide) (by decide)).1
     (by decide)⟩

/-- Claim C6: whenever the guard denies a query, `get_response` persists
exactly two messages — the raw query with role "human" first, then the
denial text with role "ai" — returns the denial text, and issues no
retrieval, composition or generator call. -/
theorem denied_turn_persists_query_and_denial (pyHash : String → Int)
    (a : OnboardingAssistant) (gen : String → Except String String) (user_input : String)
    (h : (check_query_permission pyHash a.security user_input).1 = false) :
    get_response pyHash a gen user_input =
      ⟨(check_query_permission pyHash a.security user_input).2,
       [⟨"human", user_input⟩,
        ⟨"ai", (check_query_permission pyHash a.security user_input).2⟩],
       false, false, false⟩ := by
  unfold get_response
  rcases hc : check_query_permission pyHash a.security user_input with ⟨b, d⟩
  cases b
  · rfl
  · rw [hc] at h
    exact Bool.noConfusion h

/-- Witness for C6: a confidential query from the level-1 fixture is
denied, and the turn persists the query then the denial and calls no
pipeline stage. -/
theorem denied_turn_persists_query_and_denial_witness :
    (check_query_permission pyHashZero demoNoStore.security "salary").1 = false ∧
    get_response pyHashZero demoNoStore okGen "salary" =
      ⟨(check_query_permission pyHashZero demoNoStore.security "salary").2,
       [⟨"human", "salary"⟩,
        ⟨"ai", (check_query_permission pyHashZero demoNoStore.security "salary").2⟩],
       false, false, false⟩ :=
  ⟨by decide,
   denied_turn_persists_query_and_denial pyHashZero demoNoStore okGen "salary" (by decide)⟩

/-- Counterexample to C3 as stated: when the generator raises, the turn
does return the fixed degraded envelope and no exception escapes, but
nothing at all is persisted — in particular the raw query message is not
saved, contradicting the claim's persistence conjunct. -/
theorem generator_failure_query_not_persisted_cex :
    (get_response pyHashZero demoNoStore failGen "hello").response = error_response ∧
    (get_response pyHashZero demoNoStore failGen "hello").persisted = [] ∧
    (Message.mk "human" "hello") ∉ (get_response pyHashZero demoNoStore failGen "hello").persisted := by
  decide

/-- Claim C3 (amended): if the generator stage raises on an allowed query,
`get_response` absorbs the exception (it is a total function of the
oracles) and returns the fixed degraded-system envelope, but persists no
message for that turn. -/
theorem generator_failure_degrades_without_persisting (pyHash : String → Int)
    (a : OnboardingAssistant) (gen : String → Except String String)
    (user_input e : String)
    (hallow : (check_query_permission pyHash a.security user_input).1 = true)
    (hgen : gen (retrieve_policy_information a user_input) = Except.error e) :
    get_response pyHash a gen user_input = ⟨error_response, [], true, true, true⟩ := by
  unfold get_response
  rcases hc : check_query_permission pyHash a.security user_input with ⟨b, d⟩
  cases b
  · rw [hc] at hallow
    exact Bool.noConfusion hallow
  · simp [hgen]

/-- Witness for C3 (amended): a harmless query with a raising generator
resolves to the degraded envelope with an empty persistence log. -/
theorem generator_failure_degrades_without_persisting_witness :
    (check_query_permission pyHashZero demoNoStore.security "hello").1 = true ∧
    failGen (retrieve_policy_information demoNoStore "hello") = Except.error "LLM timeout" ∧
    get_response pyHashZero demoNoStore failGen "hello" =
      ⟨error_response, [], true, true, true⟩ :=
  ⟨by decide, rfl,
   generator_failure_degrades_without_persisting pyHashZero demoNoStore failGen
     "hello" "LLM timeout" (by decide) rfl⟩

/-- Counterexample to C4 as stated: the confidential and facility denials
produced by `check_query_permission` are fixed template strings carrying
no reference id at all — the same message for different triggering texts
and no "Ref:" marker — so not every denial contains a 4-digit reference
id. -/
theorem fixed_denials_lack_ref_id_cex :
    (check_query_permission pyHashZero demoGuardLvl5 "salary").2 = generate_confidential_denial ∧
    (check_query_permission pyHashZero demoGuardLvl5 "performance").2 = generate_confidential_denial ∧
    pyIn "Ref:" generate_confidential_denial = false ∧
    (check_query_permission pyHashZero demoGuardLvl1 "underground").2 = generate_facility_denial ∧
    pyIn "Ref:" generate_facility_denial = false := by
  decide

/-- Claim C4 (amended): only the clearance-keyword denial carries a
synthetic reference id: its message contains the parenthesized marker
"(Ref: SCL-" followed by `_generate_ref_id` of the triggering keyword,
which is a deterministic (given the hash function) 4-character decimal
code; the confidential and facility denial messages contain no "Ref:"
marker. -/
theorem scl_denial_carries_four_digit_ref_id (pyHash : String → Int)
    (g : SecurityGuardrails) (kw : String) :
    pyIn ("(Ref: " ++ ("SCL-" ++ generate_ref_id pyHash kw) ++ ")")
      (generate_scl_denial pyHash g kw) = true ∧
    (generate_ref_id pyHash kw).length = 4 ∧
    (∀ c ∈ (generate_ref_id pyHash kw).data, c.isDigit = true) ∧
    pyIn "Ref:" generate_confidential_denial = false ∧
    pyIn "Ref:" generate_facility_denial = false := by
  refine ⟨?_, rfl, ?_, by decide, by decide⟩
  · apply pyIn_of_split _ _
      ((SCL_DENIAL_PRE ++ toString (requiredSclFor kw) ++ SCL_DENIAL_MID ++
        toString g.scl_level ++ SCL_DENIAL_BEFORE_REF).data)
      SCL_DENIAL_POST.data
    simp [generate_scl_denial, scl_insufficient_message, String.data_append,
      List.append_assoc]
  · intro c hc
    simp only [generate_ref_id, pad4, List.mem_cons, List.not_mem_nil, or_false] at hc
    rcases hc with rfl | rfl | rfl | rfl <;> exact digitChar_mod_digit _

/-- Counterexample to C7 as stated: with the vector store unavailable
(never initialized), retrieval returns the distinct "No policy
information available." sentinel, not the "temporarily unavailable"
sentinel the claim requires for that case. -/
theorem none_store_sentinel_cex :
    retrieve_policy_information demoNoStore "what is the leave policy" =
      "No policy information available." ∧
    pyIn "temporarily unavailable"
      (retrieve_policy_information demoNoStore "what is the leave policy") = false ∧
    retrieve_policy_information demoNoStore "what is the leave policy" ≠
      "Policy database temporarily unavailable. Please try again later." := by
  decide

/-- Claim C7 (amended): retrieval is total (never raises out of the
component) and returns a distinct non-empty sentinel in each degraded
case: "No policy information available." when the store was never
initialized, the "temporarily unavailable" sentinel when the store call
raises, and the non-empty "no information found" sentinel when zero
passages meet the threshold. -/
theorem retrieval_sentinels_total (a : OnboardingAssistant) (q : String) :
    (a.vector_store = none →
      retrieve_policy_information a q = "No policy information available.") ∧
    (∀ f e, a.vector_store = some f →
      f (get_retrieval_k a.security) a.retrieval_score_threshold q = Except.error e →
      retrieve_policy_information a q =
        "Policy database temporarily unavailable. Please try again later.") ∧
    (∀ f, a.vector_store = some f →
      f (get_retrieval_k a.security) a.retrieval_score_threshold q = Except.ok [] →
      retrieve_policy_information a q =
        "No relevant policy information found within your clearance level." ∧
      retrieve_policy_information a q ≠ "") := by
  refine ⟨?_, ?_, ?_⟩
  · intro h
    simp [retrieve_policy_information, h]
  · intro f e hs he
    simp [retrieve_policy_information, hs, he]
  · intro f hs he
    constructor
    · simp [retrieve_policy_information, hs, he]
    · simp [retrieve_policy_information, hs, he]

/-- Witness for C7 (amended): the three degraded fixtures produce the
three sentinels. -/
theorem retrieval_sentinels_total_witness :
    retrieve_policy_information demoNoStore "query" = "No policy information available." ∧
    retrieve_policy_information demoFailingStore "query" =
      "Policy database temporarily unavailable. Please try again later." ∧
    retrieve_policy_information demoEmptyStore "query" =
      "No relevant policy information found within your clearance level." :=
  ⟨(retrieval_sentinels_total demoNoStore "query").1 rfl,
   (retrieval_sentinels_total demoFailingStore "query").2.1 failingSearch
     "connection refused" rfl rfl,
   ((retrieval_sentinels_total demoEmptyStore "query").2.2 emptySearch rfl rfl).1⟩

end OnboardingAI
